import Mathlib

/-!
# Verification of `tuyetngth2558/credit-risk-analytics`

A shallow embedding, in Lean 4, of the parts of the repository that its
specification makes claims about:

* `scripts/utils/generate_sample_data.py` — the synthetic loan-data
  generator `generate_sample_loans`;
* `dashboards/app.py` — the dashboard's `load_data` fallback chain, the
  in-memory `generate_synthetic_data` demo generator, the Executive
  Summary view's column accesses, and the Data Explorer filters;
* `notebooks/exploration_full.py` — the script's data-load step and its
  `is_default` derivation;
* `scripts/create_dashboard_preview.py` — its `is_default` derivation.

Library random primitives (`numpy.random.*`, Python's `random`) are not
part of the repository; they are modelled here by a deterministic
linear-congruential generator threaded as explicit state.  The model
preserves exactly the facts the source relies on: a draw is a
deterministic function of the generator state, `randint lo hi` lands in
`[lo, hi)`, and a (weighted) `choice` over a list lands in that list.
Fractional columns (interest rate, DTI, …) are carried as naturals in
hundredths (tenths for `revol_util`), so the source's `dti > 30` test
becomes `3000 < dti`.
-/

namespace CreditRisk

/-- Global pseudo-random-generator state (one per stream: the code uses
both `numpy.random` and Python's `random` module). -/
abbrev RngState := Nat

/-- One step of the modelled generator: a 64-bit linear-congruential
update.  Stands in for one draw from the library generator. -/
def rngStep (s : RngState) : Nat × RngState :=
  let s2 := (s * 6364136223846793005 + 1442695040888963407) % 18446744073709551616
  (s2, s2)

/-- Model of `np.random.randint(lo, hi)` (and of the scaled uniform
draws): a value in `[lo, hi)`, assuming `lo < hi`. -/
def randint (lo hi : Nat) (s : RngState) : Nat × RngState :=
  let p := rngStep s
  (lo + p.1 % (hi - lo), p.2)

/-- Model of Python's `random.randint(lo, hi)`, which is inclusive on
both ends. -/
def randintIncl (lo hi : Nat) (s : RngState) : Nat × RngState :=
  randint lo (hi + 1) s

/-- Model of `np.random.choice(xs)` without weights: a uniformly chosen
element of `xs` (with `d` as the out-of-range fallback the total model
requires; never used when `xs` is nonempty). -/
def choice {α : Type} (xs : List α) (d : α) (s : RngState) : α × RngState :=
  let p := rngStep s
  (xs.getD (p.1 % xs.length) d, p.2)

/-- Select from a weighted list by a cursor `v` below the total weight:
walk the list subtracting weights. -/
def pickWeighted {α : Type} : List (α × Nat) → α → Nat → α
  | [], d, _ => d
  | (a, w) :: rest, d, v => if v < w then a else pickWeighted rest d (v - w)

/-- Model of `np.random.choice(xs, p=ws)`: the weights are carried in
hundredths alongside each element. -/
def weightedChoice {α : Type} (xs : List (α × Nat)) (d : α) (s : RngState) : α × RngState :=
  let p := rngStep s
  (pickWeighted xs d (p.1 % (xs.map Prod.snd).sum), p.2)

/-- `n` consecutive draws of a sampler `f`, threading the generator
state: the model of one `np.random.*(… , n_records)` column draw. -/
def sampleList {α : Type} : Nat → (RngState → α × RngState) → RngState → List α × RngState
  | 0, _, s => ([], s)
  | n + 1, f, s =>
    let p := f s
    let q := sampleList n f p.2
    (p.1 :: q.1, q.2)

/-- One row of the table built by `generate_sample_loans`
(`scripts/utils/generate_sample_data.py`), with every column of the
`data` dict.  `issue_d` is the day offset from 2015-01-01; monetary and
percentage columns are scaled as described in the file header. -/
structure LoanRecord where
  id : String
  member_id : String
  loan_amnt : Nat
  funded_amnt : Nat
  term : String
  int_rate : Nat
  installment : Nat
  grade : String
  emp_length : String
  home_ownership : String
  annual_inc : Nat
  verification_status : String
  issue_d : Nat
  loan_status : String
  purpose : String
  dti : Nat
  delinq_2yrs : Nat
  fico_range_low : Nat
  fico_range_high : Nat
  open_acc : Nat
  pub_rec : Nat
  revol_bal : Nat
  revol_util : Nat
  total_acc : Nat
  total_pymnt : Nat
  deriving Repr, DecidableEq

/-- Fallback record for total `getD` lookups (the source indexes columns
only at in-range positions, so its fields are in-distribution). -/
def defaultLoan : LoanRecord :=
  { id := "", member_id := "", loan_amnt := 1000, funded_amnt := 1000
    term := " 36 months", int_rate := 500, installment := 5000
    grade := "A", emp_length := "< 1 year", home_ownership := "RENT"
    annual_inc := 30000, verification_status := "Verified", issue_d := 0
    loan_status := "Fully Paid", purpose := "other", dti := 0
    delinq_2yrs := 0, fico_range_low := 600, fico_range_high := 605
    open_acc := 2, pub_rec := 0, revol_bal := 0, revol_util := 0
    total_acc := 5, total_pymnt := 0 }

instance : Inhabited LoanRecord := ⟨defaultLoan⟩

/-- `grade` weights: `p=[0.15, 0.20, 0.25, 0.20, 0.12, 0.06, 0.02]`. -/
def gradeWeights : List (String × Nat) :=
  [("A", 15), ("B", 20), ("C", 25), ("D", 20), ("E", 12), ("F", 6), ("G", 2)]

/-- `home_ownership` weights: `p=[0.35, 0.15, 0.50]`. -/
def homeWeights : List (String × Nat) :=
  [("RENT", 35), ("OWN", 15), ("MORTGAGE", 50)]

/-- `loan_status` weights: `p=[0.65, 0.20, 0.10, 0.03, 0.02]`. -/
def statusWeights : List (String × Nat) :=
  [("Fully Paid", 65), ("Current", 20), ("Charged Off", 10),
   ("Late (31-120 days)", 3), ("Default", 2)]

/-- The fixed grade alphabet of the generator. -/
def gradeAlphabet : List String := ["A", "B", "C", "D", "E", "F", "G"]

/-- The fixed loan-status set of the generator. -/
def statusSet : List String :=
  ["Fully Paid", "Current", "Charged Off", "Late (31-120 days)", "Default"]

def termList : List String := [" 36 months", " 60 months"]

def empLengthList : List String :=
  ["< 1 year", "1 year", "2 years", "3 years", "5 years", "10+ years"]

def verificationList : List String := ["Verified", "Not Verified", "Source Verified"]

def purposeList : List String :=
  ["debt_consolidation", "credit_card", "home_improvement",
   "major_purchase", "medical", "car", "other"]

/-- The independently sampled columns of `generate_sample_loans` (the
`dates` list and the `data` dict, lines 23-62), drawn column by column
in source order and assembled into rows.  `py` is the Python `random`
stream (used only for `issue_d`), `np` the `numpy` stream; the returned
state is the `numpy` stream after the last column, which the post-hoc
status re-draw continues from. -/
def rawLoanRows (py np : RngState) (n : Nat) : List LoanRecord × RngState :=
  let dates := sampleList n (randintIncl 0 1460) py
  let loanAmnts := sampleList n (randint 1000 40000) np
  let fundedAmnts := sampleList n (randint 1000 40000) loanAmnts.2
  let terms := sampleList n (choice termList " 36 months") fundedAmnts.2
  let intRates := sampleList n (randint 500 2501) terms.2
  let installments := sampleList n (randint 5000 150001) intRates.2
  let grades := sampleList n (weightedChoice gradeWeights "A") installments.2
  let empLengths := sampleList n (choice empLengthList "< 1 year") grades.2
  let homes := sampleList n (weightedChoice homeWeights "RENT") empLengths.2
  let incomes := sampleList n (randint 30000 200000) homes.2
  let verifs := sampleList n (choice verificationList "Verified") incomes.2
  let statuses := sampleList n (weightedChoice statusWeights "Fully Paid") verifs.2
  let purposes := sampleList n (choice purposeList "other") statuses.2
  let dtis := sampleList n (randint 0 4001) purposes.2
  let delinqs := sampleList n (randint 0 5) dtis.2
  let ficoLows := sampleList n (randint 600 840) delinqs.2
  let ficoHighs := sampleList n (randint 605 850) ficoLows.2
  let openAccs := sampleList n (randint 2 30) ficoHighs.2
  let pubRecs := sampleList n (randint 0 3) openAccs.2
  let revolBals := sampleList n (randint 0 50000) pubRecs.2
  let revolUtils := sampleList n (randint 0 1001) revolBals.2
  let totalAccs := sampleList n (randint 5 50) revolUtils.2
  let totalPymnts := sampleList n (randint 0 50000) totalAccs.2
  ((List.range n).map (fun i =>
    { id := "LOAN_" ++ toString i
      member_id := "MEM_" ++ toString i
      loan_amnt := loanAmnts.1.getD i defaultLoan.loan_amnt
      funded_amnt := fundedAmnts.1.getD i defaultLoan.funded_amnt
      term := terms.1.getD i defaultLoan.term
      int_rate := intRates.1.getD i defaultLoan.int_rate
      installment := installments.1.getD i defaultLoan.installment
      grade := grades.1.getD i defaultLoan.grade
      emp_length := empLengths.1.getD i defaultLoan.emp_length
      home_ownership := homes.1.getD i defaultLoan.home_ownership
      annual_inc := incomes.1.getD i defaultLoan.annual_inc
      verification_status := verifs.1.getD i defaultLoan.verification_status
      issue_d := dates.1.getD i defaultLoan.issue_d
      loan_status := statuses.1.getD i defaultLoan.loan_status
      purpose := purposes.1.getD i defaultLoan.purpose
      dti := dtis.1.getD i defaultLoan.dti
      delinq_2yrs := delinqs.1.getD i defaultLoan.delinq_2yrs
      fico_range_low := ficoLows.1.getD i defaultLoan.fico_range_low
      fico_range_high := ficoHighs.1.getD i defaultLoan.fico_range_high
      open_acc := openAccs.1.getD i defaultLoan.open_acc
      pub_rec := pubRecs.1.getD i defaultLoan.pub_rec
      revol_bal := revolBals.1.getD i defaultLoan.revol_bal
      revol_util := revolUtils.1.getD i defaultLoan.revol_util
      total_acc := totalAccs.1.getD i defaultLoan.total_acc
      total_pymnt := totalPymnts.1.getD i defaultLoan.total_pymnt }),
   totalPymnts.2)

/-- The grades singled out by correlation rule (a). -/
def lowGradeList : List String := ["F", "G"]

/-- Correlation rule (a), `df.loc[df.grade.isin(['F','G']), 'int_rate'] += 5`,
applied to one row (`+5` points is `+500` hundredths). -/
def ruleLowGrade (r : LoanRecord) : LoanRecord :=
  if lowGradeList.contains r.grade then { r with int_rate := r.int_rate + 500 } else r

/-- Correlation rule (b), `df.loc[df.fico_range_low < 650, 'int_rate'] += 3`,
applied to one row. -/
def ruleLowFico (r : LoanRecord) : LoanRecord :=
  if r.fico_range_low < 650 then { r with int_rate := r.int_rate + 300 } else r

/-- The worse-outcome-weighted status distribution of correlation rule
(c): `p=[0.5, 0.4, 0.1]`. -/
def redrawStatuses : List (String × Nat) :=
  [("Fully Paid", 50), ("Charged Off", 40), ("Late (31-120 days)", 10)]

/-- The support of the rule-(c) re-draw. -/
def redrawList : List String := redrawStatuses.map Prod.fst

/-- Correlation rule (c),
`df.loc[df.dti > 30, 'loan_status'] = np.random.choice([...], k, p=[.5,.4,.1])`:
each high-DTI row's status is overwritten by a fresh weighted draw, in
row order; other rows are left alone. -/
def redrawHighDti : List LoanRecord → RngState → List LoanRecord × RngState
  | [], s => ([], s)
  | r :: rs, s =>
    if 3000 < r.dti then
      let p := weightedChoice redrawStatuses "Fully Paid" s
      let q := redrawHighDti rs p.2
      ({ r with loan_status := p.1 } :: q.1, q.2)
    else
      let q := redrawHighDti rs s
      (r :: q.1, q.2)

/-- The final assignment `df['fico_range_high'] = df['fico_range_low'] + 5`. -/
def setFicoHigh (rows : List LoanRecord) : List LoanRecord :=
  rows.map (fun r => { r with fico_range_high := r.fico_range_low + 5 })

/-- `generate_sample_loans(n_records)`.  The function begins with
`np.random.seed(42)` and `random.seed(42)`, so the incoming global
generator states `pyRng` and `npRng` are discarded and both streams
restart from 42; the three correlation rules and the FICO-range
assignment then run in source order. -/
def generate_sample_loans (pyRng npRng : RngState) (n_records : Nat) : List LoanRecord :=
  let _ := pyRng
  let _ := npRng
  let py0 : RngState := 42
  let np0 : RngState := 42
  let raw := rawLoanRows py0 np0 n_records
  let rows1 := raw.1.map ruleLowGrade
  let rows2 := rows1.map ruleLowFico
  let redrawn := redrawHighDti rows2 raw.2
  setFicoHigh redrawn.1

/-! ## Dashboard and notebook consumers -/

/-- The fixed bad-status list `default_statuses` shared by
`notebooks/exploration_full.py` (section 7), `config/config.py`
(`DEFAULT_STATUSES`) and `scripts/create_dashboard_preview.py`. -/
def default_statuses : List String := ["Charged Off", "Default", "Late (31-120 days)"]

/-- The status list the dashboard's `generate_synthetic_data` actually
uses for its `is_default` flag (`app.py` line 100):
`df['loan_status'].isin(['Charged Off', 'Late'])`. -/
def app_bad_statuses : List String := ["Charged Off", "Late"]

/-- The `is_default` value computed inside `generate_synthetic_data`
(`app.py` line 100), after `.astype(int)`. -/
def appIsDefault (status : String) : Nat :=
  if app_bad_statuses.contains status then 1 else 0

/-- One row of the dashboard's in-memory synthetic demo table
(`generate_synthetic_data`, `app.py` lines 78-108), sampled columns plus
the derived fields.  Scaled like `LoanRecord`; `pd.cut` can yield `NaN`
outside the bins, hence the `Option` categories. -/
structure SynRecord where
  loan_amnt : Nat
  int_rate : Nat
  annual_inc : Nat
  dti : Nat
  fico_score : Nat
  loan_status : String
  loan_grade : String
  credit_utilization : Nat
  risk_score : Nat
  issue_year : Nat
  is_default : Nat
  risk_category : Option String
  fico_category : Option String
  deriving Repr, DecidableEq

/-- `loan_status` weights of the demo generator: `p=[0.6, 0.25, 0.1, 0.05]`. -/
def appStatusWeights : List (String × Nat) :=
  [("Fully Paid", 60), ("Current", 25), ("Charged Off", 10), ("Late", 5)]

/-- `loan_grade` weights of the demo generator:
`p=[0.15, 0.25, 0.25, 0.2, 0.1, 0.03, 0.02]`. -/
def appGradeWeights : List (String × Nat) :=
  [("A", 15), ("B", 25), ("C", 25), ("D", 20), ("E", 10), ("F", 3), ("G", 2)]

/-- `pd.cut(v, bins, labels)`: the label of the first half-open interval
`(b_i, b_(i+1)]` containing `v`, `none` (NaN) outside all bins. -/
def pdCut (v : Nat) : List Nat → List String → Option String
  | b0 :: b1 :: bs, l :: ls =>
    if b0 < v ∧ v ≤ b1 then some l else pdCut v (b1 :: bs) ls
  | _, _ => none

/-- `risk_category = pd.cut(risk_score, [0,25,50,75,100], labels)`,
with the score carried in hundredths. -/
def riskCategory (riskScore : Nat) : Option String :=
  pdCut riskScore [0, 2500, 5000, 7500, 10000]
    ["Low Risk", "Medium Risk", "High Risk", "Very High Risk"]

/-- `fico_category = pd.cut(fico_score, [0,580,670,740,800,850], labels)`. -/
def ficoCategory (fico : Nat) : Option String :=
  pdCut fico [0, 580, 670, 740, 800, 850]
    ["Poor", "Fair", "Good", "Very Good", "Excellent"]

/-- `generate_synthetic_data(n_samples)` (`app.py` lines 78-108): seeds
`np.random.seed(42)` (discarding the incoming state), samples ten
columns independently, then derives `is_default`, `risk_category` and
`fico_category`. -/
def generate_synthetic_data (npRng : RngState) (n_samples : Nat) : List SynRecord :=
  let _ := npRng
  let np0 : RngState := 42
  let loanAmnts := sampleList n_samples (randint 100000 4000000) np0
  let intRates := sampleList n_samples (randint 500 2500) loanAmnts.2
  let incomes := sampleList n_samples (randint 20000 200000) intRates.2
  let dtis := sampleList n_samples (randint 0 4000) incomes.2
  let ficos := sampleList n_samples (randint 600 850) dtis.2
  let statuses := sampleList n_samples (weightedChoice appStatusWeights "Fully Paid") ficos.2
  let grades := sampleList n_samples (weightedChoice appGradeWeights "A") statuses.2
  let utils := sampleList n_samples (randint 0 10000) grades.2
  let risks := sampleList n_samples (randint 0 10000) utils.2
  let years := sampleList n_samples (choice [2015, 2016, 2017, 2018] 2015) risks.2
  (List.range n_samples).map (fun i =>
    let status := statuses.1.getD i "Fully Paid"
    let risk := risks.1.getD i 0
    let fico := ficos.1.getD i 600
    { loan_amnt := loanAmnts.1.getD i 100000
      int_rate := intRates.1.getD i 500
      annual_inc := incomes.1.getD i 20000
      dti := dtis.1.getD i 0
      fico_score := fico
      loan_status := status
      loan_grade := grades.1.getD i "A"
      credit_utilization := utils.1.getD i 0
      risk_score := risk
      issue_year := years.1.getD i 2015
      is_default := appIsDefault status
      risk_category := riskCategory risk
      fico_category := ficoCategory fico })

/-- A loaded CSV cell (the dashboard consumes whatever table it finds,
so frames are schema-generic). -/
inductive Cell where
  | str (v : String)
  | num (v : Nat)
  deriving Repr, DecidableEq

/-- A loaded table: named columns and row-major cells. -/
structure DataFrame where
  cols : List String
  rows : List (List Cell)
  deriving Repr, DecidableEq

/-- The empty frame. -/
def emptyFrame : DataFrame := { cols := [], rows := [] }

/-- Flatten the demo generator's output into a generic frame (the shape
`load_data` hands to the views on its last fallback). -/
def synFrame (rs : List SynRecord) : DataFrame :=
  { cols := ["loan_amnt", "int_rate", "annual_inc", "dti", "fico_score",
             "loan_status", "loan_grade", "credit_utilization", "risk_score",
             "issue_year", "is_default", "risk_category", "fico_category"]
    rows := rs.map (fun r =>
      [Cell.num r.loan_amnt, Cell.num r.int_rate, Cell.num r.annual_inc,
       Cell.num r.dti, Cell.num r.fico_score, Cell.str r.loan_status,
       Cell.str r.loan_grade, Cell.num r.credit_utilization,
       Cell.num r.risk_score, Cell.num r.issue_year, Cell.num r.is_default,
       Cell.str (r.risk_category.getD ""), Cell.str (r.fico_category.getD "")]) }

/-- The files the loaders look for, as the visible filesystem state:
`data/processed/loans_with_features.csv` and
`data/sample/sample_loans_10k.csv`, each present (with its parsed
contents) or absent. -/
structure FileSystem where
  processedFile : Option DataFrame
  sampleFile : Option DataFrame
  deriving Repr, DecidableEq

/-- The user-facing messages `load_data` can emit. -/
inductive LoadNote where
  | warnSampleFallback
  | errSyntheticFallback
  deriving Repr, DecidableEq

/-- The dashboard's `load_data` (`app.py` lines 60-76): try the
processed features file; on `FileNotFoundError` fall back to the sample
CSV with `st.warning`; if that is missing too, fall back to
`generate_synthetic_data()` with `st.error`.  It always returns a
frame. -/
def load_data (rng : RngState) (fs : FileSystem) : DataFrame × List LoadNote :=
  match fs.processedFile with
  | some df => (df, [])
  | none =>
    match fs.sampleFile with
    | some df => (df, [LoadNote.warnSampleFallback])
    | none => (synFrame (generate_synthetic_data rng 10000), [LoadNote.errSyntheticFallback])

/-- The exploratory script's load step (`exploration_full.py` section 2):
`df = pd.read_csv(SAMPLE_DATA_PATH / 'sample_loans_10k.csv')` with no
`try`/`except` — a missing sample file raises `FileNotFoundError`
uncaught, regardless of the processed file. -/
def explorationLoad (fs : FileSystem) : Except String DataFrame :=
  match fs.sampleFile with
  | some df => Except.ok df
  | none => Except.error "FileNotFoundError: sample_loans_10k.csv"

/-- `df['c']` on a loaded frame: the column's cells when the column
exists, a `KeyError` otherwise. -/
def getCol (df : DataFrame) (c : String) : Except String (List Cell) :=
  if df.cols.contains c then
    Except.ok (df.rows.map (fun r => r.getD (df.cols.indexOf c) (Cell.str "")))
  else
    Except.error ("KeyError: " ++ c)

/-- The Executive Summary page (`app.py` lines 150-227) as the sequence
of its column accesses: the metrics row reads `loan_amnt` directly and
guards `is_default` (else the literal `"N/A"` metric); the grade-volume
chart groups by `loan_grade` with no guard; the trend chart guards
`issue_year` (else an informational message); the status pie reads
`loan_status` and the histogram `int_rate`, both unguarded.  Returns
the widgets rendered, or the first uncaught error. -/
def executiveSummary (df : DataFrame) : Except String (List String) :=
  match getCol df "loan_amnt" with
  | Except.error e => Except.error e
  | Except.ok _ =>
    let nplWidget := if df.cols.contains "is_default" then "NPL Ratio" else "N/A"
    match getCol df "loan_grade" with
    | Except.error e => Except.error e
    | Except.ok _ =>
      let trendWidget :=
        if df.cols.contains "issue_year" then "Loan Origination Trend"
        else "Year data not available"
      match getCol df "loan_status" with
      | Except.error e => Except.error e
      | Except.ok _ =>
        match getCol df "int_rate" with
        | Except.error e => Except.error e
        | Except.ok _ =>
          Except.ok ["Total Loans", "Total Volume", "Avg Loan Amount", nplWidget,
                     "Loan Volume by Grade", trendWidget,
                     "Loan Status Distribution", "Interest Rate Distribution"]

/-- The Data Explorer page's filter-widget population (`app.py` lines
595-611): the grade and status multiselects read `df['loan_grade']` and
`df['loan_status']` unguarded; the year multiselect is built only when
`issue_year` is a column. -/
def dataExplorerWidgets (df : DataFrame) : Except String (List String) :=
  match getCol df "loan_grade" with
  | Except.error e => Except.error e
  | Except.ok _ =>
    let yearWidget := if df.cols.contains "issue_year" then ["Issue Year"] else []
    match getCol df "loan_status" with
    | Except.error e => Except.error e
    | Except.ok _ => Except.ok (["Loan Grade"] ++ yearWidget ++ ["Loan Status"])

/-- The Risk Monitoring page (`app.py` lines 233-351) as the sequence
of its column accesses: the four metrics guard `risk_score`,
`fico_score`, `dti` and `credit_utilization` (else the literal `"N/A"`
metric); the default-by-grade chart is guarded only by `is_default`
presence and inside the guard groups by `loan_grade` (resolved before
the `is_default`/`loan_amnt` aggregation keys) with no check of its
own; the score histogram guards `risk_score`; the breakdown guards
`risk_category`, with its default sub-chart guarded by `is_default`. -/
def riskMonitoring (df : DataFrame) : Except String (List String) :=
  let avgRisk := if df.cols.contains "risk_score" then "Avg Risk Score" else "N/A"
  let avgFico := if df.cols.contains "fico_score" then "Avg FICO Score" else "N/A"
  let avgDti := if df.cols.contains "dti" then "Avg DTI Ratio" else "N/A"
  let avgUtil := if df.cols.contains "credit_utilization" then "Avg Credit Util" else "N/A"
  let gradeChart : Except String String :=
    if df.cols.contains "is_default" then
      match getCol df "loan_grade" with
      | Except.error e => Except.error e
      | Except.ok _ =>
        match getCol df "is_default" with
        | Except.error e => Except.error e
        | Except.ok _ =>
          match getCol df "loan_amnt" with
          | Except.error e => Except.error e
          | Except.ok _ => Except.ok "Default Rate by Grade"
    else Except.ok "Default data not available"
  match gradeChart with
  | Except.error e => Except.error e
  | Except.ok gw =>
    let scoreChart :=
      if df.cols.contains "risk_score" then "Risk Score Distribution"
      else "Risk score not available"
    let breakdown : Except String (List String) :=
      if df.cols.contains "risk_category" then
        match getCol df "risk_category" with
        | Except.error e => Except.error e
        | Except.ok _ =>
          if df.cols.contains "is_default" then
            match getCol df "is_default" with
            | Except.error e => Except.error e
            | Except.ok _ => Except.ok ["Risk Breakdown Pie", "Risk vs Default"]
          else Except.ok ["Risk Breakdown Pie"]
      else Except.ok []
    match breakdown with
    | Except.error e => Except.error e
    | Except.ok bw => Except.ok ([avgRisk, avgFico, avgDti, avgUtil, gw, scoreChart] ++ bw)

/-- The Customer Segments page (`app.py` lines 357-430) as the sequence
of its column accesses: the segment selector guards `risk_category`
(else an informational display); the metrics read `loan_amnt`
unguarded and guard `fico_score` and `is_default` (else `"N/A"`); the
income box reads `annual_inc` unguarded; the FICO histogram guards
`fico_score`; the comparison table is guarded only by `risk_category`
presence and inside that guard always passes the `loan_amnt`,
`is_default` and `fico_score` keys to `groupby().agg` — the presence
checks there switch only the aggregation name, not the key. -/
def customerSegments (df : DataFrame) : Except String (List String) :=
  let segWidget : Except String String :=
    if df.cols.contains "risk_category" then
      match getCol df "risk_category" with
      | Except.error e => Except.error e
      | Except.ok _ => Except.ok "Select Segment"
    else Except.ok "Segment data not available. Showing all customers."
  match segWidget with
  | Except.error e => Except.error e
  | Except.ok sw =>
    match getCol df "loan_amnt" with
    | Except.error e => Except.error e
    | Except.ok _ =>
      let ficoMetric := if df.cols.contains "fico_score" then "Avg FICO" else "N/A"
      let defaultMetric := if df.cols.contains "is_default" then "Default Rate" else "N/A"
      match getCol df "annual_inc" with
      | Except.error e => Except.error e
      | Except.ok _ =>
        let ficoChart :=
          if df.cols.contains "fico_score" then "FICO Score Distribution"
          else "FICO data not available"
        let comparison : Except String (List String) :=
          if df.cols.contains "risk_category" then
            match getCol df "risk_category" with
            | Except.error e => Except.error e
            | Except.ok _ =>
              match getCol df "loan_amnt" with
              | Except.error e => Except.error e
              | Except.ok _ =>
                match getCol df "is_default" with
                | Except.error e => Except.error e
                | Except.ok _ =>
                  match getCol df "fico_score" with
                  | Except.error e => Except.error e
                  | Except.ok _ => Except.ok ["Segment Comparison"]
          else Except.ok []
        match comparison with
        | Except.error e => Except.error e
        | Except.ok cw =>
          Except.ok ([sw, "Customers", "Avg Loan", ficoMetric, defaultMetric,
            "Income Distribution", ficoChart] ++ cw)

/-- The Cohort Analysis page (`app.py` lines 436-496) as the sequence
of its column accesses: the whole page is guarded by `issue_year`
presence (else a warning display); inside the guard the metrics and
volume charts read `issue_year` and `loan_amnt`, the latest-default
metric and vintage-default chart are guarded by `is_default`, but the
cohort performance table always passes the `is_default` key to
`groupby().agg` (the presence check switches only the aggregation
name) and reads `int_rate` unguarded. -/
def cohortAnalysis (df : DataFrame) : Except String (List String) :=
  if df.cols.contains "issue_year" then
    match getCol df "issue_year" with
    | Except.error e => Except.error e
    | Except.ok _ =>
      match getCol df "loan_amnt" with
      | Except.error e => Except.error e
      | Except.ok _ =>
        let defaultWidgets :=
          if df.cols.contains "is_default" then
            ["Latest Default Rate", "Default Rate by Vintage"]
          else []
        match getCol df "is_default" with
        | Except.error e => Except.error e
        | Except.ok _ =>
          match getCol df "int_rate" with
          | Except.error e => Except.error e
          | Except.ok _ =>
            Except.ok (["Total Cohorts", "Latest Volume"] ++ defaultWidgets ++
              ["Volume by Vintage", "Cohort Performance Table"])
  else Except.ok ["Cohort data (issue_year) not available in dataset"]

/-- A generator-schema row carrying the derived `is_default` column the
consumers add (`df['is_default'] = ...`). -/
structure LabeledLoan where
  loan : LoanRecord
  is_default : Nat
  deriving Repr, DecidableEq

/-- The exploration script's derivation (`exploration_full.py` lines
140-141): `df['is_default'] = df['loan_status'].isin(default_statuses).astype(int)`. -/
def explorationDeriveIsDefault (df : List LoanRecord) : List LabeledLoan :=
  df.map (fun r =>
    { loan := r
      is_default := if default_statuses.contains r.loan_status then 1 else 0 })

/-- The same rule applied to an already-labelled table: it reads only
`loan_status` and overwrites only `is_default`. -/
def reapplyIsDefault (df : List LabeledLoan) : List LabeledLoan :=
  df.map (fun lr =>
    { lr with
      is_default := if default_statuses.contains lr.loan.loan_status then 1 else 0 })

/-- The preview script's derivation (`create_dashboard_preview.py`
lines 24-25), textually the same rule as the exploration script's. -/
def previewDeriveIsDefault (df : List LoanRecord) : List LabeledLoan :=
  df.map (fun r =>
    { loan := r
      is_default := if default_statuses.contains r.loan_status then 1 else 0 })

/-- The fields of a loaded row that the Data Explorer filters touch
(`app.py` lines 596-618); the remaining columns ride along untouched
and are dropped from this projection. -/
structure ExplorerRow where
  loan_grade : String
  loan_status : String
  issue_year : Nat
  deriving Repr, DecidableEq

/-- `df['loan_grade'].unique()`: the filter's default (all-inclusive)
grade options. -/
def gradeOptions (df : List ExplorerRow) : List String :=
  (df.map (fun r => r.loan_grade)).dedup

/-- `df['loan_status'].unique()`: the status filter's default options. -/
def statusOptions (df : List ExplorerRow) : List String :=
  (df.map (fun r => r.loan_status)).dedup

/-- `sorted(df['issue_year'].unique())` up to order: the year filter's
default options. -/
def yearOptions (df : List ExplorerRow) : List Nat :=
  (df.map (fun r => r.issue_year)).dedup

/-- The Data Explorer's filter application (`app.py` lines 614-618):
`filtered_df = df[df.loan_grade.isin(grade_filter) & df.loan_status.isin(status_filter)]`,
then `if year_filter and 'issue_year' in df.columns:` a further
`isin(year_filter)` cut — skipped when the year widget is absent
(`yearFilter = none`) or its selection is empty (Python falsiness). -/
def applyExplorerFilters (df : List ExplorerRow) (gradeFilter statusFilter : List String)
    (yearFilter : Option (List Nat)) : List ExplorerRow :=
  let filtered := df.filter (fun r =>
    gradeFilter.contains r.loan_grade && statusFilter.contains r.loan_status)
  match yearFilter with
  | none => filtered
  | some ys =>
    if ys.isEmpty then filtered
    else filtered.filter (fun r => ys.contains r.issue_year)

/-- The row count the page displays:
`st.markdown(f"Showing {len(filtered_df):,} of {len(df):,} loans")`. -/
def displayedCount (df : List ExplorerRow) (gradeFilter statusFilter : List String)
    (yearFilter : Option (List Nat)) : Nat :=
  (applyExplorerFilters df gradeFilter statusFilter yearFilter).length

/-- A fallback `SynRecord` for `getD` lookups in concrete witnesses. -/
def defaultSyn : SynRecord :=
  { loan_amnt := 100000, int_rate := 500, annual_inc := 20000, dti := 0
    fico_score := 600, loan_status := "Fully Paid", loan_grade := "A"
    credit_utilization := 0, risk_score := 0, issue_year := 2015
    is_default := 0, risk_category := none, fico_category := none }

/-- A loaded table that has the core numeric columns but no
`loan_grade` column — the shape of the generator's own sample CSV,
whose grade column is named `grade`. -/
def noGradeFrame : DataFrame :=
  { cols := ["loan_amnt", "loan_status", "int_rate", "is_default"], rows := [] }

/-- A frame with the four columns the unguarded accesses need and
nothing else. -/
def coreFrame : DataFrame :=
  { cols := ["loan_amnt", "loan_grade", "loan_status", "int_rate"], rows := [] }

/-- A frame with `is_default` but no `loan_grade`: trips Risk
Monitoring's grade groupby. -/
def isDefaultOnlyFrame : DataFrame := { cols := ["is_default"], rows := [] }

/-- A frame with `risk_category` and the core columns but no
`is_default`: trips Customer Segments' aggregation keys. -/
def segFrame : DataFrame :=
  { cols := ["risk_category", "loan_amnt", "annual_inc"], rows := [] }

/-- A frame with the core columns and no `risk_category`. -/
def noSegFrame : DataFrame := { cols := ["loan_amnt", "annual_inc"], rows := [] }

/-- A frame with `issue_year` and `loan_amnt` but no `is_default`:
trips the cohort table's aggregation key. -/
def cohortFrame : DataFrame := { cols := ["issue_year", "loan_amnt"], rows := [] }

/-- A frame with every column the Cohort page touches. -/
def cohortFullFrame : DataFrame :=
  { cols := ["issue_year", "loan_amnt", "is_default", "int_rate"], rows := [] }

/-- A two-row table for the C7 witness. -/
def explorerSample : List ExplorerRow :=
  [{ loan_grade := "A", loan_status := "Fully Paid", issue_year := 2015 },
   { loan_grade := "B", loan_status := "Current", issue_year := 2016 }]

/-! ## Helper lemmas -/

/-- A property holding of the fallback and of every element holds of any
`getD` lookup. -/
theorem getD_prop {α : Type} {P : α → Prop} {l : List α} {d : α}
    (hd : P d) (hl : ∀ x ∈ l, P x) (i : Nat) : P (l.getD i d) := by
  rw [List.getD_eq_getD_get?]
  cases h : l.get? i with
  | none => simpa using hd
  | some a => simpa using hl a (List.get?_mem h)

/-- Every element of a `sampleList` draw satisfies any property every
single draw of the sampler satisfies. -/
theorem sampleList_forall {α : Type} {P : α → Prop} {f : RngState → α × RngState}
    (hf : ∀ s, P (f s).1) :
    ∀ (n : Nat) (s : RngState), ∀ x ∈ (sampleList n f s).1, P x := by
  intro n
  induction n with
  | zero => intro s x hx; simp [sampleList] at hx
  | succ m ih =>
    intro s x hx
    simp only [sampleList, List.mem_cons] at hx
    rcases hx with h | h
    · exact h ▸ hf s
    · exact ih _ x h

/-- `pickWeighted` lands in the element list whenever the cursor is
below the total weight. -/
theorem pickWeighted_mem {α : Type} :
    ∀ (xs : List (α × Nat)) (d : α) (v : Nat),
      v < (xs.map Prod.snd).sum → pickWeighted xs d v ∈ xs.map Prod.fst := by
  intro xs
  induction xs with
  | nil => intro d v hv; simp at hv
  | cons p rest ih =>
    intro d v hv
    simp only [List.map_cons, List.sum_cons] at hv
    by_cases hlt : v < p.2
    · simp [pickWeighted, hlt]
    · have : v - p.2 < (rest.map Prod.snd).sum := by omega
      simpa [pickWeighted, hlt] using List.mem_cons_of_mem _ (ih d (v - p.2) this)

/-- A weighted choice with positive total weight lands in the element
list. -/
theorem weightedChoice_mem {α : Type} (xs : List (α × Nat)) (d : α) (s : RngState)
    (h : 0 < (xs.map Prod.snd).sum) :
    (weightedChoice xs d s).1 ∈ xs.map Prod.fst := by
  unfold weightedChoice
  exact pickWeighted_mem xs d _ (Nat.mod_lt _ h)

/-- Rule (a) never touches `grade`, `loan_status`, `dti` or
`fico_range_low`. -/
theorem ruleLowGrade_fields (r : LoanRecord) :
    (ruleLowGrade r).grade = r.grade ∧ (ruleLowGrade r).loan_status = r.loan_status ∧
      (ruleLowGrade r).dti = r.dti ∧ (ruleLowGrade r).fico_range_low = r.fico_range_low := by
  unfold ruleLowGrade
  split <;> exact ⟨rfl, rfl, rfl, rfl⟩

/-- Rule (b) never touches `grade`, `loan_status`, `dti` or
`fico_range_low`. -/
theorem ruleLowFico_fields (r : LoanRecord) :
    (ruleLowFico r).grade = r.grade ∧ (ruleLowFico r).loan_status = r.loan_status ∧
      (ruleLowFico r).dti = r.dti ∧ (ruleLowFico r).fico_range_low = r.fico_range_low := by
  unfold ruleLowFico
  split <;> exact ⟨rfl, rfl, rfl, rfl⟩

/-- Structure of the rule-(c) output: every output row comes from an
input row, re-drawn from `redrawList` exactly when that row's DTI
exceeds the threshold. -/
theorem redrawHighDti_mem :
    ∀ (rows : List LoanRecord) (s : RngState) (r' : LoanRecord),
      r' ∈ (redrawHighDti rows s).1 →
      ∃ r ∈ rows,
        (3000 < r.dti ∧ ∃ st ∈ redrawList, r' = { r with loan_status := st }) ∨
        (¬ 3000 < r.dti ∧ r' = r) := by
  intro rows
  induction rows with
  | nil => intro s r' h; simp [redrawHighDti] at h
  | cons r rs ih =>
    intro s r' h
    by_cases hdti : 3000 < r.dti
    · simp only [redrawHighDti, if_pos hdti, List.mem_cons] at h
      rcases h with h | h
      · refine ⟨r, List.mem_cons_self r rs, Or.inl ⟨hdti, ?_⟩⟩
        refine ⟨(weightedChoice redrawStatuses "Fully Paid" s).1, ?_, h⟩
        exact weightedChoice_mem _ _ _ (by decide)
      · obtain ⟨r0, hr0, hcase⟩ := ih _ r' h
        exact ⟨r0, List.mem_cons_of_mem _ hr0, hcase⟩
    · simp only [redrawHighDti, if_neg hdti, List.mem_cons] at h
      rcases h with h | h
      · exact ⟨r, List.mem_cons_self r rs, Or.inr ⟨hdti, h⟩⟩
      · obtain ⟨r0, hr0, hcase⟩ := ih _ r' h
        exact ⟨r0, List.mem_cons_of_mem _ hr0, hcase⟩

/-- Every raw sampled row draws its `grade` from the grade alphabet and
its `loan_status` from the fixed status set, and keeps
`fico_range_high` within the sampled `[605, 850)` band. -/
theorem rawLoanRows_mem (py np : RngState) (n : Nat) :
    ∀ r ∈ (rawLoanRows py np n).1, r.grade ∈ gradeAlphabet ∧ r.loan_status ∈ statusSet := by
  intro r hr
  simp only [rawLoanRows, List.mem_map, List.mem_range] at hr
  obtain ⟨i, hi, rfl⟩ := hr
  constructor
  · refine getD_prop (by decide) ?_ i
    intro x hx
    have := sampleList_forall (P := fun g => g ∈ gradeWeights.map Prod.fst)
      (fun s => weightedChoice_mem gradeWeights "A" s (by decide)) n _ x hx
    simpa [gradeWeights, gradeAlphabet] using this
  · refine getD_prop (by decide) ?_ i
    intro x hx
    have := sampleList_forall (P := fun g => g ∈ statusWeights.map Prod.fst)
      (fun s => weightedChoice_mem statusWeights "Fully Paid" s (by decide)) n _ x hx
    simpa [statusWeights, statusSet] using this

/-- `contains` agrees with membership on lists with a lawful `BEq`. -/
theorem contains_iff_mem {α : Type} [BEq α] [LawfulBEq α] (l : List α) (a : α) :
    l.contains a = true ↔ a ∈ l := List.elem_iff

/-- The final FICO assignment establishes the 5-point band on any input
rows whatsoever. -/
theorem setFicoHigh_band (rows : List LoanRecord) :
    ∀ r ∈ setFicoHigh rows, r.fico_range_high - r.fico_range_low = 5 := by
  intro r hr
  simp only [setFicoHigh, List.mem_map] at hr
  obtain ⟨r0, _, rfl⟩ := hr
  show r0.fico_range_low + 5 - r0.fico_range_low = 5
  omega

/-- Every status in the rule-(c) support is in the generator's fixed
status set. -/
theorem redrawList_subset : ∀ st ∈ redrawList, st ∈ statusSet := by decide

/-- Field-level facts about every row of the generator's final output:
grade in the alphabet, status in the fixed set, and high-DTI rows'
status confined to the re-draw support. -/
theorem generate_mem_props (pyRng npRng : RngState) (n : Nat) :
    ∀ r ∈ generate_sample_loans pyRng npRng n,
      r.grade ∈ gradeAlphabet ∧ r.loan_status ∈ statusSet ∧
        (3000 < r.dti → r.loan_status ∈ redrawList) := by
  intro r hr
  simp only [generate_sample_loans, setFicoHigh, List.mem_map] at hr
  obtain ⟨r3, hr3, rfl⟩ := hr
  obtain ⟨r2, hr2, hcase⟩ := redrawHighDti_mem _ _ _ hr3
  simp only [List.mem_map] at hr2
  obtain ⟨r1, hr1, rfl⟩ := hr2
  obtain ⟨r0, hr0, rfl⟩ := hr1
  have hfields := ruleLowFico_fields (ruleLowGrade r0)
  have hfields0 := ruleLowGrade_fields r0
  have hgrade2 : (ruleLowFico (ruleLowGrade r0)).grade = r0.grade := by
    rw [hfields.1, hfields0.1]
  have hstatus2 : (ruleLowFico (ruleLowGrade r0)).loan_status = r0.loan_status := by
    rw [hfields.2.1, hfields0.2.1]
  obtain ⟨hg0, hs0⟩ := rawLoanRows_mem 42 42 n r0 hr0
  rcases hcase with ⟨hdti, st, hst, rfl⟩ | ⟨hdti, rfl⟩
  · refine ⟨by simpa [hgrade2] using hg0, ?_, ?_⟩
    · exact redrawList_subset st hst
    · intro _; exact hst
  · refine ⟨by simpa [hgrade2] using hg0, by simpa [hstatus2] using hs0, ?_⟩
    intro h3
    exact absurd h3 hdti

/-- C1: for every record count `n`, two runs of `generate_sample_loans`
with the same `n` produce identical tables — the function reseeds both
random number generators with the fixed seed 42 at the start of each
call, so its output does not depend on the incoming generator states. -/
theorem generate_sample_loans_deterministic :
    ∀ (py1 np1 py2 np2 : RngState) (n : Nat),
      generate_sample_loans py1 np1 n = generate_sample_loans py2 np2 n :=
  fun _ _ _ _ _ => rfl

/-- C2: every record of the table returned by `generate_sample_loans`
satisfies `fico_range_high - fico_range_low = 5`, and the assignment
that enforces it (the last step of the function, after the three
correlation rules) establishes the invariant on any rows whatsoever, so
no earlier step can break it. -/
theorem generate_sample_loans_fico_band :
    (∀ (pyRng npRng : RngState) (n : Nat),
      ((generate_sample_loans pyRng npRng n).all
        (fun r => decide (r.fico_range_high - r.fico_range_low = 5))) = true) ∧
    (∀ rows : List LoanRecord,
      ((setFicoHigh rows).all
        (fun r => decide (r.fico_range_high - r.fico_range_low = 5))) = true) := by
  constructor
  · intro pyRng npRng n
    rw [List.all_eq_true]
    intro r hr
    rw [decide_eq_true_eq]
    have hr' : r ∈ setFicoHigh ((redrawHighDti
        (((rawLoanRows 42 42 n).1.map ruleLowGrade).map ruleLowFico)
        (rawLoanRows 42 42 n).2).1) := hr
    exact setFicoHigh_band _ r hr'
  · intro rows
    rw [List.all_eq_true]
    intro r hr
    rw [decide_eq_true_eq]
    exact setFicoHigh_band rows r hr

/-- C8: every record of the generator's output has a grade in
`{A..G}` and a loan status in the fixed five-element status set; and
the rule-(c) re-draw cannot introduce a status outside that set — its
output statuses are in the set whenever its input statuses are. -/
theorem generate_sample_loans_grade_status_sets :
    (∀ (pyRng npRng : RngState) (n : Nat),
      ((generate_sample_loans pyRng npRng n).all
        (fun r => decide (r.grade ∈ gradeAlphabet) && decide (r.loan_status ∈ statusSet))) = true) ∧
    (∀ (rows : List LoanRecord) (s : RngState),
      (∀ r ∈ rows, r.loan_status ∈ statusSet) →
      ∀ r' ∈ (redrawHighDti rows s).1, r'.loan_status ∈ statusSet) := by
  constructor
  · intro pyRng npRng n
    rw [List.all_eq_true]
    intro r hr
    obtain ⟨hg, hs, _⟩ := generate_mem_props pyRng npRng n r hr
    simp [hg, hs]
  · intro rows s hin r' hr'
    obtain ⟨r, hr, hcase⟩ := redrawHighDti_mem rows s r' hr'
    rcases hcase with ⟨_, st, hst, rfl⟩ | ⟨_, rfl⟩
    · exact redrawList_subset st hst
    · exact hin _ hr

/-- Witness for the hypothesis-bearing conjunct of C8's theorem: on a
concrete one-row table whose status is in the set, every re-drawn row's
status stays in the set. -/
theorem generate_sample_loans_grade_status_sets_witness :
    defaultLoan.loan_status ∈ statusSet :=
  generate_sample_loans_grade_status_sets.2 [defaultLoan] 0 (by decide)
    defaultLoan (by decide)

/-- C10 (implicit): every output record with `dti > 30` (scaled:
`3000 < dti`) carries a status from the three-element re-draw support
`{Fully Paid, Charged Off, Late (31-120 days)}` — rule (c) overwrites
every high-DTI row's status with a draw from exactly those three. -/
theorem generate_sample_loans_high_dti_status :
    ∀ (pyRng npRng : RngState) (n : Nat),
      ((generate_sample_loans pyRng npRng n).all
        (fun r => decide (3000 < r.dti → r.loan_status ∈ redrawList))) = true := by
  intro pyRng npRng n
  rw [List.all_eq_true]
  intro r hr
  rw [decide_eq_true_eq]
  exact (generate_mem_props pyRng npRng n r hr).2.2

/-- Position-by-position behaviour of rule (c): rows at or below the
DTI threshold are returned unchanged at their position; rows above it
keep every field but `loan_status`, which is overwritten by a draw from
the re-draw support. -/
theorem redrawHighDti_pointwise :
    ∀ (rows : List LoanRecord) (s : RngState) (i : Nat),
      ((rows.getD i defaultLoan).dti ≤ 3000 →
        (redrawHighDti rows s).1.getD i defaultLoan = rows.getD i defaultLoan) ∧
      (3000 < (rows.getD i defaultLoan).dti →
        ∃ st ∈ redrawList,
          (redrawHighDti rows s).1.getD i defaultLoan =
            { rows.getD i defaultLoan with loan_status := st }) := by
  intro rows
  induction rows with
  | nil =>
    intro s i
    refine ⟨fun _ => rfl, fun h => ?_⟩
    simp [defaultLoan] at h
  | cons r rs ih =>
    intro s i
    by_cases hdti : 3000 < r.dti
    · cases i with
      | zero =>
        simp only [redrawHighDti, if_pos hdti, List.getD_cons_zero]
        refine ⟨fun hle => absurd hdti (by omega), fun _ => ?_⟩
        exact ⟨(weightedChoice redrawStatuses "Fully Paid" s).1,
          weightedChoice_mem _ _ _ (by decide), rfl⟩
      | succ j =>
        simp only [redrawHighDti, if_pos hdti, List.getD_cons_succ]
        exact ih _ j
    · cases i with
      | zero =>
        simp only [redrawHighDti, if_neg hdti, List.getD_cons_zero]
        exact ⟨fun _ => trivial, fun h => absurd h hdti⟩
      | succ j =>
        simp only [redrawHighDti, if_neg hdti, List.getD_cons_succ]
        exact ih _ j

/-- C6: `generate_sample_loans` applies exactly three post-hoc
correlation rules, in order: (a) rows with grade `F` or `G` get
`int_rate + 5` and all other rows pass rule (a) unchanged; (b) rows
with `fico_range_low < 650` get `int_rate + 3` and all other rows pass
rule (b) unchanged; (c) rows with `dti > 30` get their independently
sampled status overwritten by a fresh draw from the
worse-outcome-weighted support while all other rows pass rule (c)
unchanged at their position; and the generator's output is exactly the
raw sample piped through (a), then (b), then (c), then the FICO
assignment. -/
theorem generate_sample_loans_three_rules :
    (∀ r : LoanRecord, r.grade ∈ lowGradeList →
      ruleLowGrade r = { r with int_rate := r.int_rate + 500 }) ∧
    (∀ r : LoanRecord, r.grade ∉ lowGradeList → ruleLowGrade r = r) ∧
    (∀ r : LoanRecord, r.fico_range_low < 650 →
      ruleLowFico r = { r with int_rate := r.int_rate + 300 }) ∧
    (∀ r : LoanRecord, ¬ r.fico_range_low < 650 → ruleLowFico r = r) ∧
    (∀ (rows : List LoanRecord) (s : RngState) (i : Nat),
      ((rows.getD i defaultLoan).dti ≤ 3000 →
        (redrawHighDti rows s).1.getD i defaultLoan = rows.getD i defaultLoan) ∧
      (3000 < (rows.getD i defaultLoan).dti →
        ∃ st ∈ redrawList,
          (redrawHighDti rows s).1.getD i defaultLoan =
            { rows.getD i defaultLoan with loan_status := st })) ∧
    (∀ (pyRng npRng : RngState) (n : Nat),
      generate_sample_loans pyRng npRng n =
        setFicoHigh ((redrawHighDti
          (((rawLoanRows 42 42 n).1.map ruleLowGrade).map ruleLowFico)
          (rawLoanRows 42 42 n).2).1)) := by
  refine ⟨?_, ?_, ?_, ?_, redrawHighDti_pointwise, fun _ _ _ => rfl⟩
  · intro r h
    unfold ruleLowGrade
    rw [if_pos ((contains_iff_mem _ _).mpr h)]
  · intro r h
    unfold ruleLowGrade
    rw [if_neg]
    intro hc
    exact h ((contains_iff_mem _ _).mp hc)
  · intro r h
    unfold ruleLowFico
    rw [if_pos h]
  · intro r h
    unfold ruleLowFico
    rw [if_neg h]

/-- Witness for C6's theorem at concrete rows: a grade-`F` row gains 5
points of rate, a grade-`B` row is untouched by rule (a); a FICO-600
row gains 3 points, a FICO-700 row is untouched by rule (b); a
DTI-35.00 row has its status re-drawn from the support and a DTI-0 row
is untouched by rule (c). -/
theorem generate_sample_loans_three_rules_witness :
    ruleLowGrade { defaultLoan with grade := "F", int_rate := 1000 } =
      { defaultLoan with grade := "F", int_rate := 1500 } ∧
    ruleLowGrade { defaultLoan with grade := "B", fico_range_low := 700 } =
      { defaultLoan with grade := "B", fico_range_low := 700 } ∧
    ruleLowFico { defaultLoan with int_rate := 1000 } =
      { defaultLoan with int_rate := 1300 } ∧
    ruleLowFico { defaultLoan with fico_range_low := 700 } =
      { defaultLoan with fico_range_low := 700 } ∧
    (redrawHighDti [defaultLoan] 0).1.getD 0 defaultLoan = defaultLoan ∧
    (∃ st ∈ redrawList,
      (redrawHighDti [{ defaultLoan with dti := 3500 }] 0).1.getD 0 defaultLoan =
        { defaultLoan with dti := 3500, loan_status := st }) ∧
    generate_sample_loans 7 9 0 =
      setFicoHigh ((redrawHighDti
        (((rawLoanRows 42 42 0).1.map ruleLowGrade).map ruleLowFico)
        (rawLoanRows 42 42 0).2).1) :=
  ⟨generate_sample_loans_three_rules.1 _ (by decide),
   generate_sample_loans_three_rules.2.1 _ (by decide),
   generate_sample_loans_three_rules.2.2.1 _ (by decide),
   generate_sample_loans_three_rules.2.2.2.1 _ (by decide),
   (generate_sample_loans_three_rules.2.2.2.2.1 [defaultLoan] 0 0).1 (by decide),
   (generate_sample_loans_three_rules.2.2.2.2.1 [{ defaultLoan with dti := 3500 }] 0 0).2 (by decide),
   generate_sample_loans_three_rules.2.2.2.2.2 7 9 0⟩

/-! ## Claims about the data-loading consumers -/

/-- C3 counterexample: with the processed features file present but the
sample CSV missing, the exploratory script's load step raises an
uncaught `FileNotFoundError` — it neither tries the processed file
first nor falls back, so the claim that every data-loading consumer
follows the fallback chain and never terminates fatally is false. -/
theorem explorationLoad_fatal_counterexample :
    explorationLoad { processedFile := some emptyFrame, sampleFile := none } =
      Except.error "FileNotFoundError: sample_loans_10k.csv" := rfl

/-- C3 (amended): the dashboard's `load_data` tries the processed
features file first, falls back to the sample CSV with a warning, falls
back to in-memory synthetic generation with an error notice, and always
returns a table; the exploratory script, by contrast, reads only the
sample CSV and raises an uncaught `FileNotFoundError` whenever that
file is missing. -/
theorem load_data_fallback_chain :
    ∀ (rng : RngState) (fs : FileSystem),
      (∀ df, fs.processedFile = some df → load_data rng fs = (df, [])) ∧
      (∀ df, fs.processedFile = none → fs.sampleFile = some df →
        load_data rng fs = (df, [LoadNote.warnSampleFallback])) ∧
      (fs.processedFile = none → fs.sampleFile = none →
        load_data rng fs =
          (synFrame (generate_synthetic_data rng 10000), [LoadNote.errSyntheticFallback])) ∧
      (fs.sampleFile = none →
        explorationLoad fs = Except.error "FileNotFoundError: sample_loans_10k.csv") := by
  intro rng fs
  refine ⟨?_, ?_, ?_, ?_⟩
  · intro df h
    simp [load_data, h]
  · intro df h1 h2
    simp [load_data, h1, h2]
  · intro h1 h2
    simp [load_data, h1, h2]
  · intro h
    simp [explorationLoad, h]

/-- Witness for C3's amended theorem: the chain evaluated on each of
the three concrete filesystem states, plus the exploration failure. -/
theorem load_data_fallback_chain_witness :
    load_data 0 { processedFile := some emptyFrame, sampleFile := none } = (emptyFrame, []) ∧
    load_data 0 { processedFile := none, sampleFile := some emptyFrame } =
      (emptyFrame, [LoadNote.warnSampleFallback]) ∧
    load_data 0 { processedFile := none, sampleFile := none } =
      (synFrame (generate_synthetic_data 0 10000), [LoadNote.errSyntheticFallback]) ∧
    explorationLoad { processedFile := none, sampleFile := none } =
      Except.error "FileNotFoundError: sample_loans_10k.csv" :=
  ⟨(load_data_fallback_chain 0 _).1 emptyFrame rfl,
   (load_data_fallback_chain 0 _).2.1 emptyFrame rfl rfl,
   (load_data_fallback_chain 0 _).2.2.1 rfl rfl,
   (load_data_fallback_chain 0 _).2.2.2 rfl⟩

/-- C4 counterexample: the dashboard's synthetic-data generator flags
status `Late` (which is not in the fixed bad-status set) and does not
flag status `Default` (which is in it), so the claimed "flag ⇔ status
in the fixed set" fails in that consumer. -/
theorem appIsDefault_mismatch_counterexample :
    appIsDefault "Late" = 1 ∧ default_statuses.contains "Late" = false ∧
      appIsDefault "Default" = 0 ∧ default_statuses.contains "Default" = true := by
  decide

/-- The membership-test-to-`{0,1}` encoding used by every flag
derivation: the flag is 1 exactly on members. -/
theorem flag_iff_mem (l : List String) (s : String) :
    (if l.contains s then (1 : Nat) else 0) = 1 ↔ s ∈ l := by
  by_cases h : s ∈ l
  · simp [(contains_iff_mem _ _).mpr h, h]
  · have hc : l.contains s = false := by
      rw [← Bool.not_eq_true]
      intro habs
      exact h ((contains_iff_mem _ _).mp habs)
    simp [hc, h]

/-- The app's flag rule agrees with membership in its own status list. -/
theorem appIsDefault_iff (s : String) :
    appIsDefault s = 1 ↔ s ∈ app_bad_statuses := by
  unfold appIsDefault
  exact flag_iff_mem app_bad_statuses s

/-- C4 (amended): the exploration script and the preview script derive
`is_default` as membership in the fixed bad-status set
`{Charged Off, Default, Late (31-120 days)}`; the dashboard's synthetic
generator instead derives it as membership in `{Charged Off, Late}`. -/
theorem is_default_derivations :
    (∀ (df : List LoanRecord), ∀ r ∈ explorationDeriveIsDefault df,
      (r.is_default = 1 ↔ r.loan.loan_status ∈ default_statuses)) ∧
    (∀ (df : List LoanRecord), ∀ r ∈ previewDeriveIsDefault df,
      (r.is_default = 1 ↔ r.loan.loan_status ∈ default_statuses)) ∧
    (∀ (rng : RngState) (n : Nat), ∀ r ∈ generate_synthetic_data rng n,
      (r.is_default = 1 ↔ r.loan_status ∈ app_bad_statuses)) := by
  refine ⟨?_, ?_, ?_⟩
  · intro df r hr
    simp only [explorationDeriveIsDefault, List.mem_map] at hr
    obtain ⟨r0, _, rfl⟩ := hr
    exact flag_iff_mem default_statuses r0.loan_status
  · intro df r hr
    simp only [previewDeriveIsDefault, List.mem_map] at hr
    obtain ⟨r0, _, rfl⟩ := hr
    exact flag_iff_mem default_statuses r0.loan_status
  · intro rng n r hr
    simp only [generate_synthetic_data, List.mem_map, List.mem_range] at hr
    obtain ⟨i, _, rfl⟩ := hr
    exact appIsDefault_iff _

/-- Witness for C4's amended theorem: the three derivations applied to
concrete rows — a `Charged Off` loan is flagged by the exploration and
preview rules, and the first row of a one-row synthetic demo table
satisfies the app's own flag rule. -/
theorem is_default_derivations_witness :
    (({ loan := { defaultLoan with loan_status := "Charged Off" }, is_default := 1 } :
        LabeledLoan).is_default = 1 ↔
      ({ defaultLoan with loan_status := "Charged Off" } : LoanRecord).loan_status ∈
        default_statuses) ∧
    (({ loan := { defaultLoan with loan_status := "Current" }, is_default := 0 } :
        LabeledLoan).is_default = 1 ↔
      ({ defaultLoan with loan_status := "Current" } : LoanRecord).loan_status ∈
        default_statuses) ∧
    (((generate_synthetic_data 0 1).getD 0 defaultSyn).is_default = 1 ↔
      ((generate_synthetic_data 0 1).getD 0 defaultSyn).loan_status ∈ app_bad_statuses) :=
  ⟨is_default_derivations.1 [{ defaultLoan with loan_status := "Charged Off" }] _ (by decide),
   is_default_derivations.2.1 [{ defaultLoan with loan_status := "Current" }] _ (by decide),
   is_default_derivations.2.2 0 1 _ (by decide)⟩

/-- C9: the default-flag derivation is idempotent — re-running the
"status in the bad-status list" rule on an already-labelled table
changes nothing, because the rule reads only `loan_status` and writes
only `is_default`. -/
theorem is_default_derivation_idempotent :
    (∀ df : List LoanRecord,
      reapplyIsDefault (explorationDeriveIsDefault df) = explorationDeriveIsDefault df) ∧
    (∀ ldf : List LabeledLoan,
      reapplyIsDefault (reapplyIsDefault ldf) = reapplyIsDefault ldf) := by
  constructor
  · intro df
    induction df with
    | nil => rfl
    | cons r rs ih =>
      simp only [explorationDeriveIsDefault, reapplyIsDefault, List.map_cons] at ih ⊢
      rw [List.map_map] at ih ⊢
      simp [ih]
  · intro ldf
    induction ldf with
    | nil => rfl
    | cons r rs ih =>
      simp only [reapplyIsDefault, List.map_cons] at ih ⊢
      rw [List.map_map] at ih ⊢
      simp [ih]

/-- A `contains = false` test refutes membership. -/
theorem not_mem_of_contains_false {α : Type} [BEq α] [LawfulBEq α] {l : List α} {a : α}
    (h : l.contains a = false) : a ∉ l := by
  intro hm
  rw [(contains_iff_mem _ _).mpr hm] at h
  cases h

/-- C5 counterexample: on a loaded table without the optional
`loan_grade` column, the Executive Summary's grade-volume groupby is
not guarded by a column-presence check and raises an uncaught
missing-column error, so the claim that every view recovers from any
missing optional feature column is false. -/
theorem executiveSummary_missing_grade_counterexample :
    executiveSummary noGradeFrame = Except.error "KeyError: loan_grade" := rfl

/-- C5 (amended): recovery from a missing optional column is per-site,
not universal.  The metric rows and several charts guard their feature
columns (`is_default`, `issue_year`, `risk_score`, `fico_score`,
`dti`, `credit_utilization`, `risk_category`) with presence checks
substituting an `N/A` or informational display — so Risk Monitoring
renders whenever `is_default` is absent, Customer Segments renders
whenever `risk_category` is absent, and the Cohort page renders
whenever `issue_year` is absent or all its columns are present.  But
five access sites are unguarded and raise an uncaught missing-column
error: the Executive Summary's and Data Explorer's
`loan_grade`/`loan_status` reads; Risk Monitoring's default-by-grade
`loan_grade` groupby, guarded only by `is_default` presence; Customer
Segments' comparison table, which passes the `is_default` and
`fico_score` aggregation keys whenever `risk_category` is present; and
the Cohort table, which passes the `is_default` aggregation key
whenever `issue_year` is present. -/
theorem view_column_guards :
    ∀ df : DataFrame,
      (df.cols.contains "loan_amnt" = true → df.cols.contains "loan_grade" = true →
       df.cols.contains "loan_status" = true → df.cols.contains "int_rate" = true →
        ∃ widgets, executiveSummary df = Except.ok widgets ∧
          (df.cols.contains "is_default" = false → "N/A" ∈ widgets) ∧
          (df.cols.contains "issue_year" = false → "Year data not available" ∈ widgets)) ∧
      (df.cols.contains "loan_amnt" = true → df.cols.contains "loan_grade" = false →
        executiveSummary df = Except.error "KeyError: loan_grade") ∧
      (df.cols.contains "loan_grade" = false →
        dataExplorerWidgets df = Except.error "KeyError: loan_grade") ∧
      (df.cols.contains "is_default" = true → df.cols.contains "loan_grade" = false →
        riskMonitoring df = Except.error "KeyError: loan_grade") ∧
      (df.cols.contains "is_default" = false → df.cols.contains "risk_category" = false →
        ∃ widgets, riskMonitoring df = Except.ok widgets ∧
          (df.cols.contains "risk_score" = false → "N/A" ∈ widgets)) ∧
      (df.cols.contains "risk_category" = true → df.cols.contains "loan_amnt" = true →
       df.cols.contains "annual_inc" = true → df.cols.contains "is_default" = false →
        customerSegments df = Except.error "KeyError: is_default") ∧
      (df.cols.contains "risk_category" = false → df.cols.contains "loan_amnt" = true →
       df.cols.contains "annual_inc" = true →
        ∃ widgets, customerSegments df = Except.ok widgets ∧
          (df.cols.contains "fico_score" = false → "N/A" ∈ widgets)) ∧
      (df.cols.contains "issue_year" = true → df.cols.contains "loan_amnt" = true →
       df.cols.contains "is_default" = false →
        cohortAnalysis df = Except.error "KeyError: is_default") ∧
      (df.cols.contains "issue_year" = false →
        cohortAnalysis df = Except.ok ["Cohort data (issue_year) not available in dataset"]) ∧
      (df.cols.contains "issue_year" = true → df.cols.contains "loan_amnt" = true →
       df.cols.contains "is_default" = true → df.cols.contains "int_rate" = true →
        ∃ widgets, cohortAnalysis df = Except.ok widgets) := by
  intro df
  refine ⟨?_, ?_, ?_, ?_, ?_, ?_, ?_, ?_, ?_, ?_⟩
  · intro h1 h2 h3 h4
    have m1 := (contains_iff_mem _ _).mp h1
    have m2 := (contains_iff_mem _ _).mp h2
    have m3 := (contains_iff_mem _ _).mp h3
    have m4 := (contains_iff_mem _ _).mp h4
    refine ⟨["Total Loans", "Total Volume", "Avg Loan Amount",
        if df.cols.contains "is_default" then "NPL Ratio" else "N/A",
        "Loan Volume by Grade",
        if df.cols.contains "issue_year" then "Loan Origination Trend"
          else "Year data not available",
        "Loan Status Distribution", "Interest Rate Distribution"], ?_, ?_, ?_⟩
    · simp [executiveSummary, getCol, m1, m2, m3, m4]
    · intro h5
      have m5 := not_mem_of_contains_false h5
      simp [m5]
    · intro h6
      have m6 := not_mem_of_contains_false h6
      simp [m6]
  · intro h1 h2
    have m1 := (contains_iff_mem _ _).mp h1
    have m2 := not_mem_of_contains_false h2
    simp [executiveSummary, getCol, m1, m2]
  · intro h2
    have m2 := not_mem_of_contains_false h2
    simp [dataExplorerWidgets, getCol, m2]
  · intro h1 h2
    have m1 := (contains_iff_mem _ _).mp h1
    have m2 := not_mem_of_contains_false h2
    simp [riskMonitoring, getCol, m1, m2]
  · intro h1 h2
    have m1 := not_mem_of_contains_false h1
    have m2 := not_mem_of_contains_false h2
    refine ⟨[if df.cols.contains "risk_score" then "Avg Risk Score" else "N/A",
        if df.cols.contains "fico_score" then "Avg FICO Score" else "N/A",
        if df.cols.contains "dti" then "Avg DTI Ratio" else "N/A",
        if df.cols.contains "credit_utilization" then "Avg Credit Util" else "N/A",
        "Default data not available",
        if df.cols.contains "risk_score" then "Risk Score Distribution"
          else "Risk score not available"], ?_, ?_⟩
    · simp [riskMonitoring, getCol, m1, m2]
    · intro h3
      have m3 := not_mem_of_contains_false h3
      simp [m3]
  · intro h1 h2 h3 h4
    have m1 := (contains_iff_mem _ _).mp h1
    have m2 := (contains_iff_mem _ _).mp h2
    have m3 := (contains_iff_mem _ _).mp h3
    have m4 := not_mem_of_contains_false h4
    simp [customerSegments, getCol, m1, m2, m3, m4]
  · intro h1 h2 h3
    have m1 := not_mem_of_contains_false h1
    have m2 := (contains_iff_mem _ _).mp h2
    have m3 := (contains_iff_mem _ _).mp h3
    refine ⟨["Segment data not available. Showing all customers.", "Customers", "Avg Loan",
        if df.cols.contains "fico_score" then "Avg FICO" else "N/A",
        if df.cols.contains "is_default" then "Default Rate" else "N/A",
        "Income Distribution",
        if df.cols.contains "fico_score" then "FICO Score Distribution"
          else "FICO data not available"], ?_, ?_⟩
    · simp [customerSegments, getCol, m1, m2, m3]
    · intro h4
      have m4 := not_mem_of_contains_false h4
      simp [m4]
  · intro h1 h2 h3
    have m1 := (contains_iff_mem _ _).mp h1
    have m2 := (contains_iff_mem _ _).mp h2
    have m3 := not_mem_of_contains_false h3
    simp [cohortAnalysis, getCol, m1, m2, m3]
  · intro h1
    have m1 := not_mem_of_contains_false h1
    simp [cohortAnalysis, m1]
  · intro h1 h2 h3 h4
    have m1 := (contains_iff_mem _ _).mp h1
    have m2 := (contains_iff_mem _ _).mp h2
    have m3 := (contains_iff_mem _ _).mp h3
    have m4 := (contains_iff_mem _ _).mp h4
    exact ⟨["Total Cohorts", "Latest Volume", "Latest Default Rate", "Default Rate by Vintage",
        "Volume by Vintage", "Cohort Performance Table"],
      by simp [cohortAnalysis, getCol, m1, m2, m3, m4]⟩

/-- Witness for C5's amended theorem, one concrete frame per conjunct:
the Executive Summary renders on the four-column frame with both
`N/A` substitutions and fails without `loan_grade`; the Data Explorer
fails without `loan_grade`; Risk Monitoring fails on a frame carrying
only `is_default` but renders on a frame without it; Customer Segments
fails with `risk_category` and no `is_default` but renders without
`risk_category`; the Cohort page fails with `issue_year` and no
`is_default`, renders its warning without `issue_year`, and renders
fully with all four of its columns. -/
theorem view_column_guards_witness :
    (∃ widgets, executiveSummary coreFrame = Except.ok widgets ∧
      (coreFrame.cols.contains "is_default" = false → "N/A" ∈ widgets) ∧
      (coreFrame.cols.contains "issue_year" = false →
        "Year data not available" ∈ widgets)) ∧
    executiveSummary noGradeFrame = Except.error "KeyError: loan_grade" ∧
    dataExplorerWidgets noGradeFrame = Except.error "KeyError: loan_grade" ∧
    riskMonitoring isDefaultOnlyFrame = Except.error "KeyError: loan_grade" ∧
    (∃ widgets, riskMonitoring coreFrame = Except.ok widgets ∧
      (coreFrame.cols.contains "risk_score" = false → "N/A" ∈ widgets)) ∧
    customerSegments segFrame = Except.error "KeyError: is_default" ∧
    (∃ widgets, customerSegments noSegFrame = Except.ok widgets ∧
      (noSegFrame.cols.contains "fico_score" = false → "N/A" ∈ widgets)) ∧
    cohortAnalysis cohortFrame = Except.error "KeyError: is_default" ∧
    cohortAnalysis coreFrame =
      Except.ok ["Cohort data (issue_year) not available in dataset"] ∧
    (∃ widgets, cohortAnalysis cohortFullFrame = Except.ok widgets) :=
  ⟨(view_column_guards coreFrame).1 (by decide) (by decide) (by decide) (by decide),
   (view_column_guards noGradeFrame).2.1 (by decide) (by decide),
   (view_column_guards noGradeFrame).2.2.1 (by decide),
   (view_column_guards isDefaultOnlyFrame).2.2.2.1 (by decide) (by decide),
   (view_column_guards coreFrame).2.2.2.2.1 (by decide) (by decide),
   (view_column_guards segFrame).2.2.2.2.2.1 (by decide) (by decide) (by decide) (by decide),
   (view_column_guards noSegFrame).2.2.2.2.2.2.1 (by decide) (by decide) (by decide),
   (view_column_guards cohortFrame).2.2.2.2.2.2.2.1 (by decide) (by decide) (by decide),
   (view_column_guards coreFrame).2.2.2.2.2.2.2.2.1 (by decide),
   (view_column_guards cohortFullFrame).2.2.2.2.2.2.2.2.2
     (by decide) (by decide) (by decide) (by decide)⟩

/-- C7: in the Data Explorer, with the status and year filters at their
all-inclusive defaults (`unique()` of their columns), filtering by a
grade subset is sound (every kept record's grade is in the subset),
complete (every input record with a grade in the subset is kept), and
the displayed row count is the filtered table's length. -/
theorem explorer_grade_filter_correct :
    ∀ (df : List ExplorerRow) (grades : List String),
      (∀ r ∈ applyExplorerFilters df grades (statusOptions df) (some (yearOptions df)),
        r.loan_grade ∈ grades) ∧
      (∀ r ∈ df, r.loan_grade ∈ grades →
        r ∈ applyExplorerFilters df grades (statusOptions df) (some (yearOptions df))) ∧
      displayedCount df grades (statusOptions df) (some (yearOptions df)) =
        (applyExplorerFilters df grades (statusOptions df) (some (yearOptions df))).length := by
  intro df grades
  refine ⟨?_, ?_, rfl⟩
  · intro r hr
    simp only [applyExplorerFilters] at hr
    by_cases hys : (yearOptions df).isEmpty
    · simp [hys, List.mem_filter] at hr
      tauto
    · simp [hys, List.mem_filter] at hr
      tauto
  · intro r hr hg
    have hs : r.loan_status ∈ statusOptions df := by
      simp only [statusOptions, List.mem_dedup, List.mem_map]
      exact ⟨r, hr, rfl⟩
    have hy : r.issue_year ∈ yearOptions df := by
      simp only [yearOptions, List.mem_dedup, List.mem_map]
      exact ⟨r, hr, rfl⟩
    simp only [applyExplorerFilters]
    by_cases hys : (yearOptions df).isEmpty
    · simp [hys, List.mem_filter]
      tauto
    · simp [hys, List.mem_filter]
      tauto

/-- Witness for C7's theorem on a concrete two-row table filtered to
grade `A`: the grade-`A` row is kept (completeness applied at it), and
every kept row's grade is `A` (soundness applied at the kept row). -/
theorem explorer_grade_filter_correct_witness :
    ({ loan_grade := "A", loan_status := "Fully Paid", issue_year := 2015 } : ExplorerRow) ∈
      applyExplorerFilters explorerSample ["A"] (statusOptions explorerSample)
        (some (yearOptions explorerSample)) ∧
    ({ loan_grade := "A", loan_status := "Fully Paid", issue_year := 2015 } :
      ExplorerRow).loan_grade ∈ ["A"] :=
  ⟨(explorer_grade_filter_correct explorerSample ["A"]).2.1 _ (by decide) (by decide),
   (explorer_grade_filter_correct explorerSample ["A"]).1 _ (by decide)⟩

end CreditRisk
